import Mathlib

/-!
Shallow embedding of the replication / failover / load-balancing core of
`exp5_enhanced_server.py` (classes `LoadBalancer` and `EnhancedMarketplaceNode`).

Modelling conventions:
* Python `dict`s keyed by strings are association lists with unique keys;
  `defaultdict(int)` lookups use a default of `0`.
* Python `int` is `Int` (quantities, versions) or `Nat` (indices, ports).
* Wall-clock timestamps, socket handles, logging and thread spawning are not
  state: timestamps are dropped, thread starts are recorded as a list of the
  names of the started service loops, and each network interaction is an
  explicit parameter (`NetOutcome`) of the function that performs it.
* Python floats feeding the weight heuristic (response times, weights) are
  modelled as rationals; they never influence control flow in the code paths
  verified here.
* A raised Python exception inside a selection algorithm (IndexError) is
  modelled as a `none` result.
-/

namespace Marketplace

/-- Response `status` field: the code only ever emits `success` or `error`. -/
inductive Status where
  | success
  | error
deriving DecidableEq, Repr

/-- A committed transaction record, as built in `buy_product` /
`add_stock` / shipped in `replicate` messages.  The `timestamp` and
`transaction_id` fields of the Python dict are derived from wall-clock time
and are irrelevant to every claim, so they are not modelled. -/
structure Transaction where
  ttype : String
  area : String
  shop : String
  product : String
  quantity : Int
  version : Int
deriving DecidableEq, Repr

/-- Composite inventory key `(area, shop, product)` flattening the nested
`inventory['areas'][area]['shops'][shop][product]` dict structure. -/
abbrev Key := String × String × String

/-- Flat inventory: association list from composite key to quantity, with
unique keys (mirroring nested Python dicts). -/
abbrev Inventory := List (Key × Int)

/-- Dict lookup: quantity stored at a key, if the key is present. -/
def invLookup (inv : Inventory) (k : Key) : Option Int :=
  (inv.find? (fun p => p.1 == k)).map (fun p => p.2)

/-- Dict update: replace the value at a key, appending a fresh entry when the
key is absent. -/
def invSet (inv : Inventory) (k : Key) (v : Int) : Inventory :=
  match inv with
  | [] => [(k, v)]
  | (k', v') :: rest =>
      if k' == k then (k, v) :: rest else (k', v') :: invSet rest k v

/-- One entry of the `results` list produced by `search_product`. -/
structure SearchResult where
  area : String
  shop : String
  quantity : Int
  node : String
deriving DecidableEq, Repr

/-- A response message.  Fields the Python code only sometimes attaches are
`Option`s defaulting to `none`; the `timestamp` / `response_time` fields are
wall-clock values and are not modelled. -/
structure Response where
  status : Status
  message : String := ""
  results : List SearchResult := []
  remaining_quantity : Option Int := none
  new_quantity : Option Int := none
  version : Option Int := none
  load_balanced : Option Bool := none
  fallback_reason : Option String := none
  served_by : Option String := none
  processed_by : Option String := none
deriving DecidableEq, Repr

/-! ## LoadBalancer -/

/-- State of `class LoadBalancer`.  The `algorithms` dispatch dict is code,
not state; `node_weights` and `node_response_times` hold rationals standing
for the Python floats. -/
structure LoadBalancer where
  current_algorithm : String
  round_robin_index : Nat
  node_weights : List (String × ℚ)
  node_connections : List (String × Int)
  node_response_times : List (String × List ℚ)
  active_nodes : List String
deriving DecidableEq, Repr

namespace LoadBalancer

/-- `LoadBalancer.__init__`: fresh balancer, round-robin algorithm, cursor 0,
empty maps, empty active set. -/
def init : LoadBalancer :=
  { current_algorithm := "round_robin"
    round_robin_index := 0
    node_weights := []
    node_connections := []
    node_response_times := []
    active_nodes := [] }

/-- Association-list lookup with a default (Python `dict.get(k, d)` /
`defaultdict` access). -/
def alistGetD {α : Type} (l : List (String × α)) (k : String) (d : α) : α :=
  ((l.find? (fun p => p.1 == k)).map (fun p => p.2)).getD d

/-- Association-list update, appending when the key is absent. -/
def alistSet {α : Type} (l : List (String × α)) (k : String) (v : α) :
    List (String × α) :=
  match l with
  | [] => [(k, v)]
  | (k', v') :: rest =>
      if k' == k then (k, v) :: rest else (k', v') :: alistSet rest k v

/-- `set_active_nodes`: install the active list and give every listed node a
weight entry of 1.0 when it has none yet. -/
def set_active_nodes (lb : LoadBalancer) (nodes : List String) : LoadBalancer :=
  let weights := nodes.foldl
    (fun w node =>
      if (w.find? (fun p => p.1 == node)).isSome then w else alistSet w node 1)
    lb.node_weights
  { lb with active_nodes := nodes, node_weights := weights }

/-- `round_robin`: returns `None` on an empty active set; otherwise indexes
`active_nodes[round_robin_index]` FIRST and only then reduces the cursor
modulo the current length.  When the cursor is out of range (the set shrank
since the last call) the Python expression raises `IndexError`; that raised
exception is modelled as a `none` selection with the state unchanged. -/
def round_robin (lb : LoadBalancer) : Option String × LoadBalancer :=
  if lb.active_nodes.isEmpty then (none, lb)
  else
    match lb.active_nodes.get? lb.round_robin_index with
    | some node =>
        (some node,
         { lb with round_robin_index :=
             (lb.round_robin_index + 1) % lb.active_nodes.length })
    | none => (none, lb)

/-- Python truthiness test `not client_id` for an optional string argument:
true on `None` and on the empty string. -/
def clientFalsy : Option String → Bool
  | none => true
  | some c => c == ""

/-- `update_node_metrics`: append the response time, keep the last 10
samples, recompute the weight as 1/average, decay the weight by 0.9 on a
failed request. -/
def update_node_metrics (lb : LoadBalancer) (node : String) (response_time : ℚ)
    (success : Bool) : LoadBalancer :=
  let times := alistGetD lb.node_response_times node [] ++ [response_time]
  let times := if times.length > 10 then times.drop (times.length - 10) else times
  let avg : ℚ := times.foldl (· + ·) (0 : ℚ) / (times.length : ℚ)
  let weights :=
    if avg > 0 then alistSet lb.node_weights node (1 / avg) else lb.node_weights
  let weights :=
    if success then weights
    else alistSet weights node (alistGetD weights node 1 * (9 / 10))
  { lb with
      node_response_times := alistSet lb.node_response_times node times
      node_weights := weights }

/-! ### MD5 (hashlib.md5), used by `hash_based` selection

`hash_based` computes `int(hashlib.md5(str(client_id).encode()).hexdigest(), 16)`.
The full MD5 algorithm (RFC 1321) is embedded over byte lists, with 32-bit
words as `Nat` reduced mod `2 ^ 32`. -/

/-- The 64 MD5 round constants `K[i] = floor(2^32 * |sin(i+1)|)`. -/
def md5K : List Nat :=
  [0xd76aa478, 0xe8c7b756, 0x242070db, 0xc1bdceee,
   0xf57c0faf, 0x4787c62a, 0xa8304613, 0xfd469501,
   0x698098d8, 0x8b44f7af, 0xffff5bb1, 0x895cd7be,
   0x6b901122, 0xfd987193, 0xa679438e, 0x49b40821,
   0xf61e2562, 0xc040b340, 0x265e5a51, 0xe9b6c7aa,
   0xd62f105d, 0x02441453, 0xd8a1e681, 0xe7d3fbc8,
   0x21e1cde6, 0xc33707d6, 0xf4d50d87, 0x455a14ed,
   0xa9e3e905, 0xfcefa3f8, 0x676f02d9, 0x8d2a4c8a,
   0xfffa3942, 0x8771f681, 0x6d9d6122, 0xfde5380c,
   0xa4beea44, 0x4bdecfa9, 0xf6bb4b60, 0xbebfbc70,
   0x289b7ec6, 0xeaa127fa, 0xd4ef3085, 0x04881d05,
   0xd9d4d039, 0xe6db99e5, 0x1fa27cf8, 0xc4ac5665,
   0xf4292244, 0x432aff97, 0xab9423a7, 0xfc93a039,
   0x655b59c3, 0x8f0ccc92, 0xffeff47d, 0x85845dd1,
   0x6fa87e4f, 0xfe2ce6e0, 0xa3014314, 0x4e0811a1,
   0xf7537e82, 0xbd3af235, 0x2ad7d2bb, 0xeb86d391]

/-- The 64 per-round left-rotation amounts. -/
def md5S : List Nat :=
  [7, 12, 17, 22, 7, 12, 17, 22, 7, 12, 17, 22, 7, 12, 17, 22,
   5, 9, 14, 20, 5, 9, 14, 20, 5, 9, 14, 20, 5, 9, 14, 20,
   4, 11, 16, 23, 4, 11, 16, 23, 4, 11, 16, 23, 4, 11, 16, 23,
   6, 10, 15, 21, 6, 10, 15, 21, 6, 10, 15, 21, 6, 10, 15, 21]

/-- Left-rotate a 32-bit word (`x < 2 ^ 32`) by `s` bits. -/
def rotl32 (x s : Nat) : Nat :=
  (x % 2 ^ (32 - s)) * 2 ^ s + x / 2 ^ (32 - s)

/-- Bitwise complement of a 32-bit word. -/
def not32 (x : Nat) : Nat := 0xffffffff ^^^ x

/-- The MD5 round function for round index `i` applied to words b, c, d. -/
def md5F (i b c d : Nat) : Nat :=
  if i < 16 then (b &&& c) ||| (not32 b &&& d)
  else if i < 32 then (d &&& b) ||| (not32 d &&& c)
  else if i < 48 then b ^^^ c ^^^ d
  else c ^^^ (b ||| not32 d)

/-- The message-word index schedule. -/
def md5G (i : Nat) : Nat :=
  if i < 16 then i
  else if i < 32 then (5 * i + 1) % 16
  else if i < 48 then (3 * i + 5) % 16
  else 7 * i % 16

/-- One of the 64 MD5 rounds on state (A, B, C, D) with message words M. -/
def md5Round (M : List Nat) (st : Nat × Nat × Nat × Nat) (i : Nat) :
    Nat × Nat × Nat × Nat :=
  let (a, b, c, d) := st
  let tmp := (a + md5F i b c d + md5K.getD i 0 + M.getD (md5G i) 0) % 2 ^ 32
  (d, (b + rotl32 tmp (md5S.getD i 0)) % 2 ^ 32, b, c)

/-- Process one 64-byte block: decode 16 little-endian words, run 64 rounds,
add the result into the chaining state. -/
def md5Block (st : Nat × Nat × Nat × Nat) (block : List Nat) :
    Nat × Nat × Nat × Nat :=
  let M := (List.range 16).map (fun j =>
    block.getD (4 * j) 0 + 256 * block.getD (4 * j + 1) 0 +
    65536 * block.getD (4 * j + 2) 0 + 16777216 * block.getD (4 * j + 3) 0)
  let (a0, b0, c0, d0) := st
  let (a, b, c, d) := (List.range 64).foldl (md5Round M) st
  ((a0 + a) % 2 ^ 32, (b0 + b) % 2 ^ 32, (c0 + c) % 2 ^ 32, (d0 + d) % 2 ^ 32)

/-- MD5 padding: append 0x80, zero-pad to 56 mod 64, append the bit length
as a 64-bit little-endian value. -/
def md5Pad (msg : List Nat) : List Nat :=
  let len := msg.length
  let zeros := (120 - (len + 1) % 64) % 64
  let bitLen := len * 8 % 2 ^ 64
  msg ++ [128] ++ List.replicate zeros 0 ++
    (List.range 8).map (fun j => bitLen / 256 ^ j % 256)

/-- The 16 digest bytes of a byte message. -/
def md5Digest (msg : List Nat) : List Nat :=
  let padded := md5Pad msg
  let blocks := (List.range (padded.length / 64)).map
    (fun i => (padded.drop (64 * i)).take 64)
  let (a, b, c, d) :=
    blocks.foldl md5Block (0x67452301, 0xefcdab89, 0x98badcfe, 0x10325476)
  (([a, b, c, d]).map (fun w => (List.range 4).map (fun j => w / 256 ^ j % 256))).flatten

/-- `int(hashlib.md5(s.encode()).hexdigest(), 16)`: the digest bytes read as
one big-endian integer. -/
def md5int (s : String) : Nat :=
  (md5Digest (s.toUTF8.toList.map UInt8.toNat)).foldl (fun acc b => acc * 256 + b) 0

/-- `hash_based`: session-affinity selection.  With an empty active set or a
falsy client id it falls back to `round_robin`; otherwise it selects the node
at index `md5int client_id % len(active_nodes)` and leaves the balancer state
untouched. -/
def hash_based (lb : LoadBalancer) (client_id : Option String) :
    Option String × LoadBalancer :=
  if lb.active_nodes.isEmpty || clientFalsy client_id then lb.round_robin
  else
    (lb.active_nodes.get? (md5int (client_id.getD "") % lb.active_nodes.length), lb)

/-- Connection count of a node (`defaultdict(int)` access, default 0). -/
def connGet (lb : LoadBalancer) (node : String) : Int :=
  alistGetD lb.node_connections node 0

/-- `increment_connections`: unconditionally add one. -/
def increment_connections (lb : LoadBalancer) (node : String) : LoadBalancer :=
  { lb with node_connections :=
      alistSet lb.node_connections node (connGet lb node + 1) }

/-- `decrement_connections`: subtract one only when the count is positive. -/
def decrement_connections (lb : LoadBalancer) (node : String) : LoadBalancer :=
  if connGet lb node > 0 then
    { lb with node_connections :=
        alistSet lb.node_connections node (connGet lb node - 1) }
  else lb

end LoadBalancer

/-! ## EnhancedMarketplaceNode -/

/-- Local state of `class EnhancedMarketplaceNode`.  Sockets, logger, locks,
timestamps (`last_heartbeat`) and the performance metrics are not modelled;
`load_balancer` is `some` exactly when the node currently owns one. -/
structure NodeState where
  node_id : String
  port : Nat
  is_primary : Bool
  is_backup : Bool
  inventory : Inventory
  transaction_log : List Transaction
  version_number : Int
  load_balancer : Option LoadBalancer
  primary_port : Option Nat
  primary_address : Option Nat
  backup_ports : List Nat
deriving DecidableEq, Repr

/-- `load_initial_data`, flattened to composite keys. -/
def load_initial_data : Inventory :=
  [(("borivali", "Fresh_Mart", "apple"), 50), (("borivali", "Fresh_Mart", "banana"), 30),
   (("borivali", "Fresh_Mart", "milk"), 25), (("borivali", "Fresh_Mart", "bread"), 20),
   (("borivali", "Daily_Needs", "rice"), 100), (("borivali", "Daily_Needs", "oil"), 20),
   (("borivali", "Daily_Needs", "sugar"), 40), (("borivali", "Daily_Needs", "salt"), 15),
   (("andheri", "Tech_Store", "laptop"), 5), (("andheri", "Tech_Store", "phone"), 10),
   (("andheri", "Tech_Store", "charger"), 50), (("andheri", "Tech_Store", "headphones"), 25),
   (("andheri", "Food_Corner", "pizza"), 15), (("andheri", "Food_Corner", "burger"), 20),
   (("andheri", "Food_Corner", "fries"), 25), (("andheri", "Food_Corner", "coke"), 30),
   (("goregaon", "Veggie_World", "tomato"), 60), (("goregaon", "Veggie_World", "potato"), 80),
   (("goregaon", "Veggie_World", "onion"), 45), (("goregaon", "Veggie_World", "carrot"), 35),
   (("goregaon", "Bakery_House", "bread"), 40), (("goregaon", "Bakery_House", "cake"), 8),
   (("goregaon", "Bakery_House", "cookies"), 30), (("goregaon", "Bakery_House", "pastry"), 12),
   (("bhayandar", "Farm_Fresh", "mango"), 25), (("bhayandar", "Farm_Fresh", "apple"), 30),
   (("bhayandar", "Farm_Fresh", "banana"), 40), (("bhayandar", "Farm_Fresh", "grapes"), 20),
   (("bhayandar", "Kitchen_Needs", "spices"), 50), (("bhayandar", "Kitchen_Needs", "salt"), 25),
   (("bhayandar", "Kitchen_Needs", "sugar"), 35), (("bhayandar", "Kitchen_Needs", "flour"), 45)]

/-- `EnhancedMarketplaceNode.__init__` (the state-relevant part). -/
def NodeState.init (node_id : String) (port : Nat) (is_primary : Bool) : NodeState :=
  { node_id := node_id
    port := port
    is_primary := is_primary
    is_backup := !is_primary
    inventory := load_initial_data
    transaction_log := []
    version_number := 0
    load_balancer := if is_primary then some LoadBalancer.init else none
    primary_port := if is_primary then some 8000 else none
    primary_address := if is_primary then none else some 8000
    backup_ports := if is_primary then [8001, 8002] else [] }

/-- `search_product`: collect every (area, shop) holding a positive quantity
of the product; always a `success` response carrying the current version. -/
def search_product (s : NodeState) (product : String) : Response :=
  let results := (s.inventory.filter
      (fun p => p.1.2.2 == product && decide (0 < p.2))).map
    (fun p => SearchResult.mk p.1.1 p.1.2.1 p.2 s.node_id)
  { status := Status.success
    results := results
    version := some s.version_number
    served_by := some s.node_id }

/-- `buy_product`, local branch (lines 480-537; the code runs it whenever the
node is primary or has no configured primary address — a backup instead
forwards the request over the network, mutating no local state, which the
step relation below models as the identity).  On sufficient stock: decrement
the quantity, bump the version, append a transaction, answer `success` with
the quantity re-read from the store.  Otherwise: an `error` response and no
state change. -/
def buy_product (s : NodeState) (area shop product : String) (quantity : Int) :
    Response × NodeState :=
  match invLookup s.inventory (area, shop, product) with
  | some current_qty =>
      if current_qty ≥ quantity then
        let t : Transaction :=
          { ttype := "buy", area := area, shop := shop, product := product
            quantity := quantity, version := s.version_number + 1 }
        let inv := invSet s.inventory (area, shop, product) (current_qty - quantity)
        let s' := { s with
          inventory := inv
          version_number := s.version_number + 1
          transaction_log := s.transaction_log ++ [t] }
        ({ status := Status.success
           message := "Purchased " ++ toString quantity ++ " " ++ product ++
             " from " ++ shop
           remaining_quantity := invLookup inv (area, shop, product)
           version := some s'.version_number
           processed_by := some s.node_id }, s')
      else
        ({ status := Status.error
           message := "Insufficient quantity. Available: " ++ toString current_qty ++
             ", Requested: " ++ toString quantity }, s)
  | none =>
      ({ status := Status.error
         message := "Product " ++ product ++ " not found in " ++ shop ++ ", " ++ area },
       s)

/-- `add_stock`, local branch (lines 550-595): create the key when absent
(the code creates missing area/shop dicts), otherwise add to the stored
quantity; bump the version, append a transaction, answer `success`. -/
def add_stock (s : NodeState) (area shop product : String) (quantity : Int) :
    Response × NodeState :=
  let k : Key := (area, shop, product)
  let inv :=
    match invLookup s.inventory k with
    | some v => invSet s.inventory k (v + quantity)
    | none => s.inventory ++ [(k, quantity)]
  let t : Transaction :=
    { ttype := "add_stock", area := area, shop := shop, product := product
      quantity := quantity, version := s.version_number + 1 }
  let s' := { s with
    inventory := inv
    version_number := s.version_number + 1
    transaction_log := s.transaction_log ++ [t] }
  ({ status := Status.success
     message := "Added " ++ toString quantity ++ " " ++ product ++ " to " ++ shop
     new_quantity := invLookup inv k
     version := some s'.version_number
     processed_by := some s.node_id }, s')

/-- Python `log[-100:]`: the most recent 100 entries. -/
def keepLast100 (l : List Transaction) : List Transaction :=
  l.drop (l.length - 100)

/-- `handle_sync_request` (lines 832-852): unconditionally install the pushed
snapshot and version — there is NO comparison against the currently held
version — extend the transaction log with the shipped tail and truncate it to
the last 100 entries, and answer `success` with the (new) version. -/
def handle_sync_request (s : NodeState) (full_state : Inventory)
    (tx_log : List Transaction) (version : Int) : Response × NodeState :=
  let s' := { s with
    inventory := full_state
    version_number := version
    transaction_log := keepLast100 (s.transaction_log ++ tx_log) }
  ({ status := Status.success, version := some version }, s')

/-- `handle_replication` (lines 632-657): a primary refuses with an error and
touches nothing; a backup unconditionally installs the pushed full state and
version — again with NO staleness check — and appends the transaction. -/
def handle_replication (s : NodeState) (t : Transaction) (full_state : Inventory)
    (version : Int) : Response × NodeState :=
  if s.is_primary then
    ({ status := Status.error, message := "Primary cannot receive replication" }, s)
  else
    let s' := { s with
      inventory := full_state
      version_number := version
      transaction_log := s.transaction_log ++ [t] }
    ({ status := Status.success, version := some version }, s')

/-- `initiate_failover` (lines 716-736): promote to primary, recompute the
backup peer ports as `[p for p in [8001, 8002] if p != self.port]`, build a
FRESH `LoadBalancer()` and immediately push `backup-<port>` identifiers for
those peers into its active set, then spawn the three primary service loops.
The returned list names the threads started. -/
def initiate_failover (s : NodeState) : NodeState × List String :=
  let bports := [8001, 8002].filter (fun p => p != s.port)
  let backup_nodes := bports.map (fun p => "backup-" ++ toString p)
  let lb := LoadBalancer.init.set_active_nodes backup_nodes
  ({ s with
      is_primary := true
      is_backup := false
      primary_port := some s.port
      backup_ports := bports
      load_balancer := some lb },
   ["heartbeat_sender", "backup_monitor", "load_balancer_monitor"])

/-! ## Forwarded reads -/

/-- What the network did when the primary forwarded a read to a backup:
the backup answered `resp`, the connection timed out (`socket.timeout`), or
some other exception with message `msg` was raised (connection refused, bad
payload, ...). -/
inductive NetOutcome where
  | ok (resp : Response)
  | timeout
  | err (msg : String)
deriving DecidableEq, Repr

/-- Connection-accounting events, for stating the bracketing discipline. -/
inductive ConnOp where
  | inc (node : String)
  | dec (node : String)
deriving DecidableEq, Repr

/-- Replay a list of connection-accounting events against a balancer. -/
def applyConnOps (lb : LoadBalancer) : List ConnOp → LoadBalancer
  | [] => lb
  | ConnOp.inc n :: rest => applyConnOps (lb.increment_connections n) rest
  | ConnOp.dec n :: rest => applyConnOps (lb.decrement_connections n) rest

/-- `forward_read_request` (lines 355-414) for a primary holding balancer
`lb`: increment the target's connection count, attempt the forward, and in a
`finally` block decrement it again.  On a reply: record metrics and annotate
the reply as load-balanced.  On `socket.timeout`: drop the node from the
active list (`list.remove`, first occurrence) and serve the search locally,
annotated `load_balanced = false` with reason `backup_timeout`.  On any other
exception: record failure metrics — the node is NOT removed — and serve
locally with the exception text as reason.  The third component is the trace
of connection-accounting events, in order. -/
def forward_read_request (s : NodeState) (lb : LoadBalancer) (target_port : Nat)
    (product : String) (outcome : NetOutcome) (response_time : ℚ) :
    Response × LoadBalancer × List ConnOp :=
  let node_id := "backup-" ++ toString target_port
  let lb1 := lb.increment_connections node_id
  match outcome with
  | NetOutcome.ok resp =>
      let lb2 := lb1.update_node_metrics node_id response_time
        (resp.status == Status.success)
      let resp := { resp with load_balanced := some true, served_by := some node_id }
      (resp, lb2.decrement_connections node_id, [ConnOp.inc node_id, ConnOp.dec node_id])
  | NetOutcome.timeout =>
      let lb2 :=
        if node_id ∈ lb1.active_nodes then
          { lb1 with active_nodes := lb1.active_nodes.erase node_id }
        else lb1
      let resp := { search_product s product with
        load_balanced := some false, fallback_reason := some "backup_timeout" }
      (resp, lb2.decrement_connections node_id, [ConnOp.inc node_id, ConnOp.dec node_id])
  | NetOutcome.err msg =>
      let lb2 := lb1.update_node_metrics node_id response_time false
      let resp := { search_product s product with
        load_balanced := some false, fallback_reason := some msg }
      (resp, lb2.decrement_connections node_id, [ConnOp.inc node_id, ConnOp.dec node_id])

/-! ## Mutation sequences (local commit path) -/

/-- A local write: the two mutating request kinds. -/
inductive Mutation where
  | buy (area shop product : String) (quantity : Int)
  | addStock (area shop product : String) (quantity : Int)
deriving DecidableEq, Repr

/-- Apply one local mutation (the commit path of `buy_product` /
`add_stock`). -/
def applyMutation (s : NodeState) : Mutation → Response × NodeState
  | Mutation.buy a sh p q => buy_product s a sh p q
  | Mutation.addStock a sh p q => add_stock s a sh p q

/-- Apply a sequence of local mutations, also counting how many of them
committed (answered `success`). -/
def runMutations (s : NodeState) : List Mutation → NodeState × Nat
  | [] => (s, 0)
  | m :: ms =>
      let rest := runMutations (applyMutation s m).2 ms
      (rest.1, (if (applyMutation s m).1.status == Status.success then 1 else 0) + rest.2)

/-! ## Node step relation -/

/-- One observable step of a node: an inbound request being handled, a
balancer maintenance action by a background loop, or the backup heartbeat
monitor firing.  Network effects and payloads arriving from peers are the
constructors' parameters. -/
inductive Op where
  | search (product : String)
  | buy (area shop product : String) (quantity : Int)
  | addStock (area shop product : String) (quantity : Int)
  | getStatus
  | syncReq (full_state : Inventory) (tx_log : List Transaction) (version : Int)
  | replicate (t : Transaction) (full_state : Inventory) (version : Int)
  | lbConfig (algorithm : String)
  | lbRead (target_port : Nat) (product : String) (outcome : NetOutcome)
      (response_time : ℚ)
  | setActive (nodes : List String)
  | monitorTick (timedOut : Bool)
deriving DecidableEq, Repr

/-- The state reached after one step.  Reads, status queries and forwarded
writes (a backup relaying `buy` / `add_stock` to the primary) leave local
state unchanged; `monitorTick true` on a backup runs `initiate_failover`;
`lbConfig` / `lbRead` / `setActive` act on the owned balancer when there is
one (`set_algorithm` only accepts a known algorithm name). -/
def step (s : NodeState) : Op → NodeState
  | Op.search _ => s
  | Op.buy a sh p q =>
      if !s.is_primary && s.primary_address.isSome then s
      else (buy_product s a sh p q).2
  | Op.addStock a sh p q =>
      if !s.is_primary && s.primary_address.isSome then s
      else (add_stock s a sh p q).2
  | Op.getStatus => s
  | Op.syncReq st log v => (handle_sync_request s st log v).2
  | Op.replicate t st v => (handle_replication s t st v).2
  | Op.lbConfig alg =>
      match s.load_balancer with
      | some lb =>
          if s.is_primary &&
             (alg ∈ ["round_robin", "weighted", "least_connections", "hash_based"]) then
            { s with load_balancer := some { lb with current_algorithm := alg } }
          else s
      | none => s
  | Op.lbRead port p outcome rt =>
      match s.load_balancer with
      | some lb =>
          { s with load_balancer := some (forward_read_request s lb port p outcome rt).2.1 }
      | none => s
  | Op.setActive nodes =>
      match s.load_balancer with
      | some lb => { s with load_balancer := some (lb.set_active_nodes nodes) }
      | none => s
  | Op.monitorTick timedOut =>
      if !s.is_primary && timedOut then (initiate_failover s).1 else s

/-- Run a sequence of steps. -/
def run (s : NodeState) (ops : List Op) : NodeState :=
  ops.foldl step s

/-! ## Concrete states used for witnesses and counterexamples -/

/-- A freshly started primary node. -/
def primaryNode : NodeState := NodeState.init "node1" 8000 true

/-- A freshly started backup node on port 8001. -/
def backupNode : NodeState := NodeState.init "node2" 8001 false

/-- A backup that has advanced to version 5. -/
def staleBackup : NodeState := { backupNode with version_number := 5 }

/-- An out-of-date snapshot, as a stale `sync_request` / `replicate` message
would carry. -/
def staleInv : Inventory := [(("borivali", "Fresh_Mart", "apple"), 1)]

/-- A sample replicated transaction. -/
def tx0 : Transaction :=
  { ttype := "buy", area := "borivali", shop := "Fresh_Mart", product := "apple"
    quantity := 1, version := 3 }

/-! ## Helper lemmas -/

theorem invLookup_invSet (inv : Inventory) (k : Key) (v : Int) :
    invLookup (invSet inv k v) k = some v := by
  induction inv with
  | nil => simp [invSet, invLookup, List.find?]
  | cons hd tl ih =>
      obtain ⟨k', v'⟩ := hd
      cases h : k' == k with
      | true => simp [invSet, h, invLookup, List.find?]
      | false =>
          simp only [invSet, h, Bool.false_eq_true, if_false]
          simpa [invLookup, List.find?, h] using ih

theorem alistGetD_alistSet_self {α : Type} (l : List (String × α)) (k : String)
    (v d : α) : LoadBalancer.alistGetD (LoadBalancer.alistSet l k v) k d = v := by
  induction l with
  | nil => simp [LoadBalancer.alistSet, LoadBalancer.alistGetD, List.find?]
  | cons hd tl ih =>
      obtain ⟨k', v'⟩ := hd
      cases h : k' == k with
      | true => simp [LoadBalancer.alistSet, h, LoadBalancer.alistGetD, List.find?]
      | false =>
          simp only [LoadBalancer.alistSet, h, Bool.false_eq_true, if_false]
          simpa [LoadBalancer.alistGetD, List.find?, h] using ih

theorem alistGetD_alistSet_of_ne {α : Type} (l : List (String × α)) (k k' : String)
    (v d : α) (hne : k' ≠ k) :
    LoadBalancer.alistGetD (LoadBalancer.alistSet l k v) k' d
      = LoadBalancer.alistGetD l k' d := by
  induction l with
  | nil =>
      simp [LoadBalancer.alistSet, LoadBalancer.alistGetD, List.find?,
        beq_false_of_ne (Ne.symm hne)]
  | cons hd tl ih =>
      obtain ⟨k0, v0⟩ := hd
      cases h : k0 == k with
      | true =>
          have hk0 : k0 = k := by simpa using h
          subst hk0
          simp [LoadBalancer.alistSet, h, LoadBalancer.alistGetD, List.find?,
            beq_false_of_ne hne, beq_false_of_ne (Ne.symm hne)]
      | false =>
          simp only [LoadBalancer.alistSet, h, Bool.false_eq_true, if_false]
          by_cases h2 : k' = k0
          · subst h2
            simp [LoadBalancer.alistGetD, List.find?]
          · simp only [LoadBalancer.alistGetD, List.find?] at ih ⊢
            simp [beq_false_of_ne (by exact fun hx => h2 hx.symm : k0 ≠ k'), ih]

theorem increment_connections_active (lb : LoadBalancer) (n : String) :
    (lb.increment_connections n).active_nodes = lb.active_nodes := rfl

theorem decrement_connections_active (lb : LoadBalancer) (n : String) :
    (lb.decrement_connections n).active_nodes = lb.active_nodes := by
  unfold LoadBalancer.decrement_connections
  split <;> rfl

theorem update_node_metrics_active (lb : LoadBalancer) (n : String) (rt : ℚ)
    (ok : Bool) : (lb.update_node_metrics n rt ok).active_nodes = lb.active_nodes := rfl

theorem update_node_metrics_connections (lb : LoadBalancer) (n : String) (rt : ℚ)
    (ok : Bool) :
    (lb.update_node_metrics n rt ok).node_connections = lb.node_connections := rfl

/-! ## Claim theorems -/

/-- C1 (code_bug evidence): a Backup holding version 5 that handles a
`sync_request` or `replicate` message carrying version 3 does NOT ignore it:
the handlers install the stale snapshot unconditionally, regressing the
version from 5 to 3, replacing the inventory, appending to the transaction
log, and answering `success` — refuting the claimed `StaleSync` no-op. -/
theorem stale_sync_regresses :
    staleBackup.is_primary = false ∧
    staleBackup.version_number = 5 ∧
    (handle_sync_request staleBackup staleInv [tx0] 3).2.version_number = 3 ∧
    (handle_sync_request staleBackup staleInv [tx0] 3).2.inventory = staleInv ∧
    (handle_sync_request staleBackup staleInv [tx0] 3).2.transaction_log = [tx0] ∧
    (handle_sync_request staleBackup staleInv [tx0] 3).1.status = Status.success ∧
    (handle_replication staleBackup tx0 staleInv 3).2.version_number = 3 ∧
    (handle_replication staleBackup tx0 staleInv 3).2.inventory = staleInv ∧
    (handle_replication staleBackup tx0 staleInv 3).1.status = Status.success := by
  refine ⟨rfl, rfl, rfl, rfl, ?_, rfl, rfl, rfl, rfl⟩
  decide

/-- C4 counterexample: after failover of the backup on port 8001, the fresh
load balancer's active set is `["backup-8002"]`, not the empty set the claim
states. -/
theorem failover_active_set_nonempty :
    ((initiate_failover backupNode).1.load_balancer.map
      (fun lb => lb.active_nodes)) = some ["backup-8002"] ∧
    (["backup-8002"] : List String) ≠ [] := by
  exact ⟨rfl, by decide⟩

/-- C4 (amended): `initiate_failover` promotes the node to Primary, derives
its backup peer ports as the other known replica ports, installs a fresh
`LoadBalancer` (round-robin algorithm, cursor 0, no recorded connections or
response times) whose active set is the derived backup peer set — not an
empty set — and starts the heartbeat-sender, backup-monitor and
load-balancer-monitor services. -/
theorem initiate_failover_spec (s : NodeState) :
    (initiate_failover s).1.is_primary = true ∧
    (initiate_failover s).1.is_backup = false ∧
    (initiate_failover s).1.primary_port = some s.port ∧
    (initiate_failover s).1.backup_ports = [8001, 8002].filter (fun p => p != s.port) ∧
    (initiate_failover s).1.load_balancer = some
      (LoadBalancer.init.set_active_nodes
        (([8001, 8002].filter (fun p => p != s.port)).map
          (fun p => "backup-" ++ toString p))) ∧
    (∀ lb, (initiate_failover s).1.load_balancer = some lb →
      lb.active_nodes = ([8001, 8002].filter (fun p => p != s.port)).map
          (fun p => "backup-" ++ toString p) ∧
      lb.current_algorithm = "round_robin" ∧
      lb.round_robin_index = 0 ∧
      lb.node_connections = [] ∧
      lb.node_response_times = []) ∧
    (initiate_failover s).2 =
      ["heartbeat_sender", "backup_monitor", "load_balancer_monitor"] := by
  refine ⟨rfl, rfl, rfl, rfl, rfl, ?_, rfl⟩
  intro lb hlb
  have hlb' : lb = LoadBalancer.init.set_active_nodes
      (([8001, 8002].filter (fun p => p != s.port)).map
        (fun p => "backup-" ++ toString p)) := by
    have := hlb.symm.trans (rfl :
      (initiate_failover s).1.load_balancer = some
        (LoadBalancer.init.set_active_nodes
          (([8001, 8002].filter (fun p => p != s.port)).map
            (fun p => "backup-" ++ toString p))))
    exact Option.some.inj this
  subst hlb'
  refine ⟨rfl, rfl, rfl, rfl, rfl⟩

/-- C4 witness for the amended theorem's inner hypothesis: instantiating at
the backup on port 8001 and its actual fresh balancer. -/
theorem initiate_failover_spec_witness :
    (initiate_failover backupNode).1.is_primary = true ∧
    ((initiate_failover backupNode).1.load_balancer.map
      (fun lb => lb.round_robin_index)) = some 0 := by
  refine ⟨(initiate_failover_spec backupNode).1, ?_⟩
  have h := (initiate_failover_spec backupNode).2.2.2.2.2.1
    (LoadBalancer.init.set_active_nodes ["backup-8002"]) rfl
  rw [show (initiate_failover backupNode).1.load_balancer
      = some (LoadBalancer.init.set_active_nodes ["backup-8002"]) from rfl]
  simpa using h.2.2.1

/-- C5 (code_bug evidence): starting from a fresh balancer whose active set
is `["backup-8001", "backup-8002"]`, one `round_robin` call (returning the
first node and advancing the cursor to 1) followed by the set shrinking to
`["backup-8001"]` leaves the cursor out of range; the next `round_robin`
call on this non-empty active set evaluates `active_nodes[1]` BEFORE any
clamping and raises `IndexError` (modelled as selecting `none`), refuting
the claim that a call with a non-empty active set cannot fail. -/
theorem round_robin_index_error :
    (((LoadBalancer.init.set_active_nodes
        ["backup-8001", "backup-8002"]).round_robin).1 = some "backup-8001") ∧
    (((LoadBalancer.init.set_active_nodes
        ["backup-8001", "backup-8002"]).round_robin).2.round_robin_index = 1) ∧
    ((((LoadBalancer.init.set_active_nodes
        ["backup-8001", "backup-8002"]).round_robin).2.set_active_nodes
          ["backup-8001"]).active_nodes ≠ []) ∧
    ((((LoadBalancer.init.set_active_nodes
        ["backup-8001", "backup-8002"]).round_robin).2.set_active_nodes
          ["backup-8001"]).round_robin).1 = none := by
  refine ⟨rfl, rfl, ?_, rfl⟩
  decide

/-- C10: a node in the Primary role answering a `replicate` message returns
the error response `Primary cannot receive replication` and leaves its
entire local state — inventory, version, transaction log — unchanged. -/
theorem primary_rejects_replication (s : NodeState) (t : Transaction)
    (full_state : Inventory) (version : Int) (hp : s.is_primary = true) :
    handle_replication s t full_state version =
      ({ status := Status.error, message := "Primary cannot receive replication" }, s) := by
  simp [handle_replication, hp]

/-- C10 witness: a concrete primary node rejecting a concrete replicate
message. -/
theorem primary_rejects_replication_witness :
    handle_replication primaryNode tx0 staleInv 3 =
      ({ status := Status.error, message := "Primary cannot receive replication" },
       primaryNode) :=
  primary_rejects_replication primaryNode tx0 staleInv 3 rfl

/-- C2: a debit on the Primary for an existing key: when the requested
quantity exceeds the stored quantity the response is an error and the whole
node state (inventory, version, log) is untouched; when the stored quantity
suffices the response is a success, the stored quantity drops by exactly the
requested amount (and is therefore still non-negative), and the response's
`remaining_quantity` is exactly the new stored quantity. -/
theorem buy_product_correct (s : NodeState) (area shop product : String)
    (q cur : Int) (_hp : s.is_primary = true)
    (hlk : invLookup s.inventory (area, shop, product) = some cur) :
    (cur < q →
      (buy_product s area shop product q).1.status = Status.error ∧
      (buy_product s area shop product q).2 = s) ∧
    (q ≤ cur →
      (buy_product s area shop product q).1.status = Status.success ∧
      invLookup (buy_product s area shop product q).2.inventory
        (area, shop, product) = some (cur - q) ∧
      (buy_product s area shop product q).1.remaining_quantity = some (cur - q) ∧
      0 ≤ cur - q ∧
      (buy_product s area shop product q).2.version_number = s.version_number + 1) := by
  constructor
  · intro hlt
    have hng : ¬ (cur ≥ q) := not_le.mpr hlt
    simp [buy_product, hlk, hng]
  · intro hle
    have hge : cur ≥ q := hle
    refine ⟨?_, ?_, ?_, ?_, ?_⟩ <;>
      simp [buy_product, hlk, hge, invLookup_invSet]

/-- C2 witness: buying 4 apples from the initial 50 at Fresh_Mart. -/
theorem buy_product_correct_witness :
    (buy_product primaryNode "borivali" "Fresh_Mart" "apple" 4).1.status
      = Status.success ∧
    invLookup (buy_product primaryNode "borivali" "Fresh_Mart" "apple" 4).2.inventory
      ("borivali", "Fresh_Mart", "apple") = some (50 - 4) ∧
    (buy_product primaryNode "borivali" "Fresh_Mart" "apple" 4).1.remaining_quantity
      = some (50 - 4) ∧
    (0 : Int) ≤ 50 - 4 ∧
    (buy_product primaryNode "borivali" "Fresh_Mart" "apple" 4).2.version_number
      = primaryNode.version_number + 1 :=
  (buy_product_correct primaryNode "borivali" "Fresh_Mart" "apple" 4 50 rfl rfl).2
    (by norm_num)

/-- Any local `buy_product` either commits (success, version bumped by one)
or refuses (error, state exactly unchanged). -/
theorem buy_product_version (s : NodeState) (a sh p : String) (q : Int) :
    ((buy_product s a sh p q).1.status = Status.success ∧
      (buy_product s a sh p q).2.version_number = s.version_number + 1) ∨
    ((buy_product s a sh p q).1.status = Status.error ∧
      (buy_product s a sh p q).2 = s) := by
  cases h : invLookup s.inventory (a, sh, p) with
  | none => simp [buy_product, h]
  | some cur =>
      by_cases hge : cur ≥ q
      · simp [buy_product, h, hge]
      · simp [buy_product, h, hge]

/-- Local `add_stock` always commits: success, version bumped by one. -/
theorem add_stock_version (s : NodeState) (a sh p : String) (q : Int) :
    (add_stock s a sh p q).1.status = Status.success ∧
    (add_stock s a sh p q).2.version_number = s.version_number + 1 :=
  ⟨rfl, rfl⟩

/-- Every local mutation either commits with a version bump of one or leaves
the state untouched. -/
theorem applyMutation_version (s : NodeState) (m : Mutation) :
    ((applyMutation s m).1.status = Status.success ∧
      (applyMutation s m).2.version_number = s.version_number + 1) ∨
    ((applyMutation s m).1.status = Status.error ∧
      (applyMutation s m).2 = s) := by
  cases m with
  | buy a sh p q => exact buy_product_version s a sh p q
  | addStock a sh p q => exact Or.inl (add_stock_version s a sh p q)

/-- C3: the version number is bumped by exactly one per committed local
mutation, is left unchanged by a failed one (so no local mutation ever
decreases it), and over any sequence of local mutations the final version is
the initial version plus the number of committed mutations — hence strictly
increasing across the committed ones. -/
theorem version_monotonic :
    (∀ (s : NodeState) (m : Mutation),
      (applyMutation s m).1.status = Status.success →
        (applyMutation s m).2.version_number = s.version_number + 1) ∧
    (∀ (s : NodeState) (m : Mutation),
      (applyMutation s m).1.status ≠ Status.success →
        (applyMutation s m).2.version_number = s.version_number) ∧
    (∀ (s : NodeState) (ms : List Mutation),
      (runMutations s ms).1.version_number
        = s.version_number + (runMutations s ms).2) := by
  have hsucc : ∀ (s : NodeState) (m : Mutation),
      (applyMutation s m).1.status = Status.success →
        (applyMutation s m).2.version_number = s.version_number + 1 := by
    intro s m h
    rcases applyMutation_version s m with ⟨_, h2⟩ | ⟨h1, _⟩
    · exact h2
    · rw [h] at h1; cases h1
  have hfail : ∀ (s : NodeState) (m : Mutation),
      (applyMutation s m).1.status ≠ Status.success →
        (applyMutation s m).2.version_number = s.version_number := by
    intro s m h
    rcases applyMutation_version s m with ⟨h1, _⟩ | ⟨_, h2⟩
    · exact absurd h1 h
    · rw [h2]
  refine ⟨hsucc, hfail, ?_⟩
  intro s ms
  induction ms generalizing s with
  | nil => simp [runMutations]
  | cons m ms ih =>
      simp only [runMutations]
      by_cases hs : (applyMutation s m).1.status = Status.success
      · rw [ih ((applyMutation s m).2), hsucc s m hs]
        simp only [hs, beq_self_eq_true, if_true]
        push_cast
        ring
      · rw [ih ((applyMutation s m).2), hfail s m hs]
        have hb : ((applyMutation s m).1.status == Status.success) = false := by
          simpa using hs
        simp [hb]

/-- C3 witness: on the initial primary, a successful buy bumps the version
by one; an oversized buy answers error and leaves the version at 0. -/
theorem version_monotonic_witness :
    (applyMutation primaryNode
      (Mutation.buy "borivali" "Fresh_Mart" "apple" 4)).2.version_number
      = primaryNode.version_number + 1 ∧
    (applyMutation primaryNode
      (Mutation.buy "borivali" "Fresh_Mart" "apple" 1000)).2.version_number
      = primaryNode.version_number :=
  ⟨version_monotonic.1 primaryNode (Mutation.buy "borivali" "Fresh_Mart" "apple" 4) rfl,
   version_monotonic.2.1 primaryNode (Mutation.buy "borivali" "Fresh_Mart" "apple" 1000)
     (by decide)⟩

/-- The load balancer state used in the C6 counterexample and C7 witness. -/
def lbW : LoadBalancer := LoadBalancer.init.set_active_nodes ["backup-8001", "backup-8002"]

/-- A forwarded read hitting a non-timeout failure (connection refused). -/
def errForward : Response × LoadBalancer × List ConnOp :=
  forward_read_request primaryNode (LoadBalancer.init.set_active_nodes ["backup-8001"])
    8001 "apple" (NetOutcome.err "Connection refused") 1

/-- C6 counterexample: when the forward to the selected backup fails with a
non-timeout exception (connection refused — the unreachable case), the code
only penalizes the node's metrics; the node is NOT removed from the load
balancer's active set, refuting the removal part of the claim. -/
theorem forward_error_keeps_node :
    errForward.2.1.active_nodes = ["backup-8001"] ∧
    "backup-8001" ∈ errForward.2.1.active_nodes ∧
    errForward.1.status = Status.success := by
  have h : errForward.2.1.active_nodes = ["backup-8001"] := rfl
  exact ⟨h, by rw [h]; exact List.mem_singleton.mpr rfl, rfl⟩

/-- C6 (amended): on `socket.timeout` the failed node IS removed from the
immediate active set; on any other failure (unreachable peer, bad payload)
it is kept and only its metrics are penalized.  In both cases the request is
served locally from the primary's own inventory, with `status = success`,
`load_balanced = false` and a fallback reason code — the client always
receives an answer. -/
theorem forward_fallback (s : NodeState) (lb : LoadBalancer) (port : Nat)
    (product : String) (rt : ℚ) (msg : String) :
    ((forward_read_request s lb port product NetOutcome.timeout rt).1.status
        = Status.success ∧
      (forward_read_request s lb port product NetOutcome.timeout rt).1.load_balanced
        = some false ∧
      (forward_read_request s lb port product NetOutcome.timeout rt).1.fallback_reason
        = some "backup_timeout" ∧
      (forward_read_request s lb port product NetOutcome.timeout rt).1.results
        = (search_product s product).results ∧
      (forward_read_request s lb port product NetOutcome.timeout rt).1.served_by
        = some s.node_id ∧
      (forward_read_request s lb port product NetOutcome.timeout rt).2.1.active_nodes
        = lb.active_nodes.erase ("backup-" ++ toString port)) ∧
    ((forward_read_request s lb port product (NetOutcome.err msg) rt).1.status
        = Status.success ∧
      (forward_read_request s lb port product (NetOutcome.err msg) rt).1.load_balanced
        = some false ∧
      (forward_read_request s lb port product (NetOutcome.err msg) rt).1.fallback_reason
        = some msg ∧
      (forward_read_request s lb port product (NetOutcome.err msg) rt).1.results
        = (search_product s product).results ∧
      (forward_read_request s lb port product (NetOutcome.err msg) rt).1.served_by
        = some s.node_id ∧
      (forward_read_request s lb port product (NetOutcome.err msg) rt).2.1.active_nodes
        = lb.active_nodes) := by
  constructor
  · refine ⟨rfl, rfl, rfl, rfl, rfl, ?_⟩
    simp only [forward_read_request, decrement_connections_active]
    by_cases hm : ("backup-" ++ toString port) ∈ lb.active_nodes
    · simp [LoadBalancer.increment_connections, hm]
    · simp [LoadBalancer.increment_connections, hm, List.erase_of_not_mem hm]
  · refine ⟨rfl, rfl, rfl, rfl, rfl, ?_⟩
    show (((lb.increment_connections ("backup-" ++ toString port)).update_node_metrics
        ("backup-" ++ toString port) rt false).decrement_connections
        ("backup-" ++ toString port)).active_nodes = lb.active_nodes
    rw [decrement_connections_active, update_node_metrics_active,
      increment_connections_active]

/-- C7: hash-based selection is a pure function of the client id and the
active-node list: with a non-empty client id and a non-empty active set it
selects the node at index `LoadBalancer.md5int client_id mod |active_nodes|` and mutates
no balancer state (so a repeated call — or a call against any balancer
holding the same active list — returns the same node), the selected index is
always valid, and with no client id the call falls back to `round_robin`. -/
theorem hash_based_affinity (lb : LoadBalancer) (cid : String)
    (h1 : cid ≠ "") (h2 : lb.active_nodes ≠ []) :
    ((lb.hash_based (some cid)).1
        = lb.active_nodes.get? (LoadBalancer.md5int cid % lb.active_nodes.length)) ∧
    (lb.hash_based (some cid)).2 = lb ∧
    (∀ lb2 : LoadBalancer, lb2.active_nodes = lb.active_nodes →
      (lb2.hash_based (some cid)).1 = (lb.hash_based (some cid)).1) ∧
    (∃ node, (lb.hash_based (some cid)).1 = some node ∧ node ∈ lb.active_nodes) ∧
    (∀ lb3 : LoadBalancer, lb3.hash_based none = lb3.round_robin) := by
  have he : lb.active_nodes.isEmpty = false := by
    simpa [List.isEmpty_iff] using h2
  have hf : LoadBalancer.clientFalsy (some cid) = false := by
    simpa [LoadBalancer.clientFalsy] using h1
  have hsel : (lb.hash_based (some cid)).1
      = lb.active_nodes.get? (LoadBalancer.md5int cid % lb.active_nodes.length) := by
    simp [LoadBalancer.hash_based, he, hf]
  have hlen : 0 < lb.active_nodes.length := List.length_pos.mpr h2
  have hidx : LoadBalancer.md5int cid % lb.active_nodes.length < lb.active_nodes.length :=
    Nat.mod_lt _ hlen
  refine ⟨hsel, by simp [LoadBalancer.hash_based, he, hf], ?_, ?_, ?_⟩
  · intro lb2 hact
    have he2 : lb2.active_nodes.isEmpty = false := by
      simpa [List.isEmpty_iff, hact] using h2
    simp [LoadBalancer.hash_based, he, he2, hf, hact]
  · refine ⟨lb.active_nodes.get ⟨LoadBalancer.md5int cid % lb.active_nodes.length, hidx⟩, ?_, ?_⟩
    · rw [hsel]
      exact List.get?_eq_get hidx
    · exact List.get_mem _ _ _
  · intro lb3
    simp [LoadBalancer.hash_based, LoadBalancer.clientFalsy]

/-- C7 witness: the client id `alice` against active set
`[backup-8001, backup-8002]`. -/
theorem hash_based_affinity_witness :
    (lbW.hash_based (some "alice")).1
      = lbW.active_nodes.get? (LoadBalancer.md5int "alice" % lbW.active_nodes.length) ∧
    (lbW.hash_based (some "alice")).2 = lbW :=
  ⟨(hash_based_affinity lbW "alice" (by decide) (by decide)).1,
   (hash_based_affinity lbW "alice" (by decide) (by decide)).2.1⟩

/-- All per-node active-connection counts are non-negative. -/
def ConnNonneg (lb : LoadBalancer) : Prop :=
  ∀ n : String, 0 ≤ lb.connGet n

theorem connNonneg_increment (lb : LoadBalancer) (n : String)
    (h : ConnNonneg lb) : ConnNonneg (lb.increment_connections n) := by
  intro n'
  show 0 ≤ LoadBalancer.alistGetD
    (LoadBalancer.alistSet lb.node_connections n (lb.connGet n + 1)) n' 0
  by_cases hn : n' = n
  · subst hn
    rw [alistGetD_alistSet_self]
    have := h n'
    omega
  · rw [alistGetD_alistSet_of_ne _ _ _ _ _ hn]
    exact h n'

theorem connNonneg_decrement (lb : LoadBalancer) (n : String)
    (h : ConnNonneg lb) : ConnNonneg (lb.decrement_connections n) := by
  unfold LoadBalancer.decrement_connections
  split
  · rename_i hpos
    intro n'
    show 0 ≤ LoadBalancer.alistGetD
      (LoadBalancer.alistSet lb.node_connections n (lb.connGet n - 1)) n' 0
    by_cases hn : n' = n
    · subst hn
      rw [alistGetD_alistSet_self]
      omega
    · rw [alistGetD_alistSet_of_ne _ _ _ _ _ hn]
      exact h n'
  · exact h

theorem connNonneg_applyConnOps (lb : LoadBalancer) (ops : List ConnOp)
    (h : ConnNonneg lb) : ConnNonneg (applyConnOps lb ops) := by
  induction ops generalizing lb with
  | nil => exact h
  | cons op rest ih =>
      cases op with
      | inc n => exact ih _ (connNonneg_increment lb n h)
      | dec n => exact ih _ (connNonneg_decrement lb n h)

/-- Decrementing right after incrementing (possibly with metric updates in
between that do not touch the connection map) restores a non-negative
connection count exactly. -/
theorem decrement_after_increment (lb lb' : LoadBalancer) (n : String)
    (hconn : lb'.node_connections = (lb.increment_connections n).node_connections)
    (h : 0 ≤ lb.connGet n) :
    (lb'.decrement_connections n).connGet n = lb.connGet n := by
  have hget : lb'.connGet n = lb.connGet n + 1 := by
    show LoadBalancer.alistGetD lb'.node_connections n 0 = lb.connGet n + 1
    rw [hconn]
    exact alistGetD_alistSet_self _ _ _ _
  unfold LoadBalancer.decrement_connections
  rw [if_pos (by omega)]
  show LoadBalancer.alistGetD
    (LoadBalancer.alistSet lb'.node_connections n (lb'.connGet n - 1)) n 0
      = lb.connGet n
  rw [alistGetD_alistSet_self, hget]
  omega

/-- C8: (a) any sequence of `increment_connections` / `decrement_connections`
events keeps every per-node connection count non-negative; (b) every
forwarded read emits exactly one increment followed by exactly one decrement
of the target node, on the success, timeout and error paths alike; (c) under
non-negative counts the bracket is exact — the target's count after the
forwarded read equals its count before. -/
theorem connection_accounting :
    (∀ (lb : LoadBalancer) (ops : List ConnOp),
      ConnNonneg lb → ConnNonneg (applyConnOps lb ops)) ∧
    (∀ (s : NodeState) (lb : LoadBalancer) (port : Nat) (product : String)
        (outcome : NetOutcome) (rt : ℚ),
      (forward_read_request s lb port product outcome rt).2.2 =
        [ConnOp.inc ("backup-" ++ toString port),
         ConnOp.dec ("backup-" ++ toString port)]) ∧
    (∀ (s : NodeState) (lb : LoadBalancer) (port : Nat) (product : String)
        (outcome : NetOutcome) (rt : ℚ),
      0 ≤ lb.connGet ("backup-" ++ toString port) →
      (forward_read_request s lb port product outcome rt).2.1.connGet
        ("backup-" ++ toString port) = lb.connGet ("backup-" ++ toString port)) := by
  refine ⟨connNonneg_applyConnOps, ?_, ?_⟩
  · intro s lb port product outcome rt
    cases outcome <;> rfl
  · intro s lb port product outcome rt h
    cases outcome with
    | ok resp =>
        exact decrement_after_increment lb _ _
          (update_node_metrics_connections _ _ _ _) h
    | timeout =>
        refine decrement_after_increment lb _ _ ?_ h
        split <;> rfl
    | err msg =>
        exact decrement_after_increment lb _ _
          (update_node_metrics_connections _ _ _ _) h

/-- C8 witness: an increment followed by two decrements (the second a
no-op at zero) leaves the count non-negative. -/
theorem connection_accounting_witness :
    (0 : Int) ≤ (applyConnOps LoadBalancer.init
      [ConnOp.inc "backup-8001", ConnOp.dec "backup-8001",
       ConnOp.dec "backup-8001"]).connGet "backup-8001" :=
  connection_accounting.1 LoadBalancer.init
    [ConnOp.inc "backup-8001", ConnOp.dec "backup-8001", ConnOp.dec "backup-8001"]
    (fun _ => le_refl 0) "backup-8001"

theorem buy_product_is_primary (s : NodeState) (a sh p : String) (q : Int) :
    (buy_product s a sh p q).2.is_primary = s.is_primary := by
  cases h : invLookup s.inventory (a, sh, p) with
  | none => simp [buy_product, h]
  | some cur => by_cases hge : cur ≥ q <;> simp [buy_product, h, hge]

/-- C9: the Primary role is absorbing: whatever operation a node in the
Primary role performs or handles next — reads, writes, status queries, sync
or replicate messages, balancer maintenance, or a heartbeat-monitor tick —
its role stays Primary, for single steps and over arbitrary step sequences.
Since the only role change any step performs is `initiate_failover` setting
Backup to Primary, a node transitions Backup→Primary at most once and never
back. -/
theorem role_irreversible :
    (∀ (s : NodeState) (op : Op), s.is_primary = true →
      (step s op).is_primary = true) ∧
    (∀ (s : NodeState) (ops : List Op), s.is_primary = true →
      (run s ops).is_primary = true) := by
  have hstep : ∀ (s : NodeState) (op : Op), s.is_primary = true →
      (step s op).is_primary = true := by
    intro s op hp
    cases op with
    | search p => exact hp
    | buy a sh p q => simp [step, hp, buy_product_is_primary]
    | addStock a sh p q =>
        have hred : step s (Op.addStock a sh p q) = (add_stock s a sh p q).2 := by
          simp [step, hp]
        rw [hred]
        exact hp
    | getStatus => exact hp
    | syncReq st log v => exact hp
    | replicate t st v => simp [step, handle_replication, hp]
    | lbConfig alg =>
        cases hlb : s.load_balancer with
        | none => simpa [step, hlb] using hp
        | some lb =>
            simp only [step, hlb]
            split <;> simpa using hp
    | lbRead port p outcome rt =>
        cases hlb : s.load_balancer with
        | none => simpa [step, hlb] using hp
        | some lb => simpa [step, hlb] using hp
    | setActive nodes =>
        cases hlb : s.load_balancer with
        | none => simpa [step, hlb] using hp
        | some lb => simpa [step, hlb] using hp
    | monitorTick timedOut => simp [step, hp]
  refine ⟨hstep, ?_⟩
  intro s ops hp
  induction ops generalizing s with
  | nil => exact hp
  | cons op rest ih =>
      exact ih (step s op) (hstep s op hp)

/-- C9 witness: a primary stays primary across a run of representative
steps, including a heartbeat-monitor tick that observed a timeout. -/
theorem role_irreversible_witness :
    (run primaryNode [Op.getStatus, Op.monitorTick true,
      Op.buy "borivali" "Fresh_Mart" "apple" 4]).is_primary = true :=
  role_irreversible.2 primaryNode
    [Op.getStatus, Op.monitorTick true, Op.buy "borivali" "Fresh_Mart" "apple" 4] rfl

end Marketplace
